import Mathlib

/-!
Shallow embedding of the rainbridge bookmark-migration core
(https://github.com/ashebanow/rainbridge) and proofs about it.

The embedded pieces are:
* the resilient request executor `doRequestWithRetry`
  (src/internal/karakeep/karakeep.go, lines 59-93; an identical copy lives
  in the raindrop client, src/unnamed/part_001, lines 183-217);
* the paginated collection reader loop of `GetRaindropsByCollection`
  and the raindrop client operations `GetCollections`, `GetRaindrops`
  (src/unnamed/part_001, second document, lines 235-318 — the version of
  internal/raindrop/raindrop.go that carries the sleeper/retry fields
  constructed by internal/raindrop/raindrop_test.go and exposing the
  methods called by internal/importer/importer.go);
* the transfer orchestrator `RunImport`
  (src/internal/importer/importer.go, lines 26-85).

HTTP is modelled by explicit response values: a transport is a function
from the attempt index to either a transport error or a response; a
response carries its numeric status code, its status line, and its body
already shaped as the decode result the Go code would produce from it.
Durations are nanosecond counts (`Int`); `rand.Float64()` is an explicit
rational parameter in `[0, 1)`.
-/

namespace Rainbridge

/-- An HTTP response as seen by the client code: numeric status code,
status line (Go `resp.Status`, e.g. "429 Too Many Requests"), and the
body, pre-shaped as the decode result the caller would extract. -/
structure HttpResponse (α : Type) where
  statusCode : Nat
  status : String
  body : α
deriving DecidableEq, Repr

/-- Outcome of one `httpClient.Do(req)` call: a transport error or a
response. -/
inductive DoResult (α : Type) where
  | err (e : String)
  | ok (resp : HttpResponse α)
deriving DecidableEq, Repr

/-- Outcome of `doRequestWithRetry`: the three in-loop returns plus the
(dead) return after the loop. -/
inductive ExecResult (α : Type) where
  | transportErr (e : String)
  | success (resp : HttpResponse α)
  | rateLimitExhausted (msg : String)
  | unreachableErr (msg : String)
deriving DecidableEq, Repr

/-- A run of `doRequestWithRetry`: how many HTTP calls were made, the
sleeps performed (nanoseconds, in order), and the returned value. -/
structure ExecTrace (α : Type) where
  calls : Nat
  sleeps : List Int
  result : ExecResult α
deriving DecidableEq, Repr

/-- `const maxRetries = 5` in doRequestWithRetry. -/
def maxRetries : Nat := 5

/-- `baseDelay := time.Second`, in nanoseconds. -/
def baseDelay : Int := 1000000000

/-- `delay := baseDelay * time.Duration(1<<uint(attempt))`. -/
def backoffDelay (n : Nat) : Int := baseDelay * 2 ^ n

/-- `sleepDuration := delay + jitter` where
`jitter := time.Duration(rand.Float64() * float64(delay) * 0.1)`;
the float-to-Duration conversion truncates, which on these non-negative
values is the floor. `r` stands for the `rand.Float64()` draw. -/
def sleepDuration (n : Nat) (r : ℚ) : Int :=
  backoffDelay n + Int.floor (r * (backoffDelay n : ℚ) * (1 / 10))

/-- The retry loop of `doRequestWithRetry`
(karakeep.go lines 63-89), entered at `attempt`:
`for attempt := 0; attempt <= maxRetries; attempt++ { ... }`.
The `else` branch is the statement after the loop
(line 92, `return nil, fmt.Errorf("unexpected error in retry logic")`). -/
def doRequestAux {α : Type} (httpDo : Nat → DoResult α) (rand : Nat → ℚ)
    (attempt : Nat) : ExecTrace α :=
  if _h : attempt ≤ maxRetries then
    match httpDo attempt with
    | .err e => ⟨1, [], .transportErr e⟩
    | .ok resp =>
      if resp.statusCode ≠ 429 then
        ⟨1, [], .success resp⟩
      else if attempt = maxRetries then
        ⟨1, [], .rateLimitExhausted
          ("rate limited after " ++ toString maxRetries ++ " retries: " ++ resp.status)⟩
      else
        let rest := doRequestAux httpDo rand (attempt + 1)
        ⟨rest.calls + 1, sleepDuration attempt (rand attempt) :: rest.sleeps, rest.result⟩
  else
    ⟨0, [], .unreachableErr "unexpected error in retry logic"⟩
termination_by maxRetries + 1 - attempt
decreasing_by simp_wf; omega

/-- `doRequestWithRetry` (karakeep.go lines 59-93): the loop started at
attempt 0. `httpDo k` is the outcome of the `k`-th `c.httpClient.Do(req)`
call; `rand k` the `rand.Float64()` draw of the `k`-th backoff. -/
def doRequestWithRetry {α : Type} (httpDo : Nat → DoResult α) (rand : Nat → ℚ) :
    ExecTrace α :=
  doRequestAux httpDo rand 0

/-! Step lemmas for the four exits of one loop iteration. -/

lemma doRequestAux_transport {α : Type} {httpDo : Nat → DoResult α} {rand : Nat → ℚ}
    {attempt : Nat} {e : String} (ha : attempt ≤ maxRetries)
    (hdo : httpDo attempt = .err e) :
    doRequestAux httpDo rand attempt = ⟨1, [], .transportErr e⟩ := by
  rw [doRequestAux]
  simp [ha, hdo]

lemma doRequestAux_non429 {α : Type} {httpDo : Nat → DoResult α} {rand : Nat → ℚ}
    {attempt : Nat} {resp : HttpResponse α} (ha : attempt ≤ maxRetries)
    (hdo : httpDo attempt = .ok resp) (hs : resp.statusCode ≠ 429) :
    doRequestAux httpDo rand attempt = ⟨1, [], .success resp⟩ := by
  rw [doRequestAux]
  simp [ha, hdo, hs]

lemma doRequestAux_last {α : Type} {httpDo : Nat → DoResult α} {rand : Nat → ℚ}
    {resp : HttpResponse α} (hdo : httpDo maxRetries = .ok resp)
    (hs : resp.statusCode = 429) :
    doRequestAux httpDo rand maxRetries =
      ⟨1, [], .rateLimitExhausted
        ("rate limited after " ++ toString maxRetries ++ " retries: " ++ resp.status)⟩ := by
  rw [doRequestAux]
  simp [hdo, hs]

lemma doRequestAux_retry {α : Type} {httpDo : Nat → DoResult α} {rand : Nat → ℚ}
    {attempt : Nat} {resp : HttpResponse α} (ha : attempt < maxRetries)
    (hdo : httpDo attempt = .ok resp) (hs : resp.statusCode = 429) :
    doRequestAux httpDo rand attempt =
      ⟨(doRequestAux httpDo rand (attempt + 1)).calls + 1,
        sleepDuration attempt (rand attempt) :: (doRequestAux httpDo rand (attempt + 1)).sleeps,
        (doRequestAux httpDo rand (attempt + 1)).result⟩ := by
  rw [doRequestAux]
  simp [Nat.le_of_lt ha, Nat.ne_of_lt ha, hdo, hs]

lemma doRequestAux_result_ne_unreachable {α : Type}
    (httpDo : Nat → DoResult α) (rand : Nat → ℚ) :
    ∀ (k attempt : Nat), maxRetries + 1 - attempt ≤ k → attempt ≤ maxRetries →
      ∀ m : String, (doRequestAux httpDo rand attempt).result ≠ .unreachableErr m := by
  intro k
  induction k with
  | zero =>
    intro attempt hk ha m
    exact absurd hk (by omega)
  | succ k ih =>
    intro attempt hk ha m
    rcases hdo : httpDo attempt with e | resp
    · rw [doRequestAux_transport ha hdo]
      intro hcontra
      exact ExecResult.noConfusion hcontra
    · by_cases hs : resp.statusCode = 429
      · by_cases hlast : attempt = maxRetries
        · subst hlast
          rw [doRequestAux_last hdo hs]
          intro hcontra
          exact ExecResult.noConfusion hcontra
        · have hlt : attempt < maxRetries := Nat.lt_of_le_of_ne ha hlast
          rw [doRequestAux_retry hlt hdo hs]
          exact ih (attempt + 1) (by omega) (by omega) m
      · rw [doRequestAux_non429 ha hdo hs]
        intro hcontra
        exact ExecResult.noConfusion hcontra

/-- C4: if every HTTP attempt comes back with status 429, the executor makes
exactly 6 calls (1 initial + 5 retries), sleeping the backoff duration between
consecutive calls, and returns the rate-limit-exhausted error built from the
retry count and the last response's status line. -/
theorem executor_exhausts_rate_limit {α : Type}
    (httpDo : Nat → DoResult α) (rand : Nat → ℚ) (s : String) (b : α)
    (h : ∀ k, httpDo k = .ok ⟨429, s, b⟩) :
    doRequestWithRetry httpDo rand =
      ⟨6,
        [sleepDuration 0 (rand 0), sleepDuration 1 (rand 1), sleepDuration 2 (rand 2),
          sleepDuration 3 (rand 3), sleepDuration 4 (rand 4)],
        .rateLimitExhausted
          ("rate limited after " ++ toString maxRetries ++ " retries: " ++ s)⟩ := by
  have e5 : doRequestAux httpDo rand 5 =
      ⟨1, [], .rateLimitExhausted
        ("rate limited after " ++ toString maxRetries ++ " retries: " ++ s)⟩ :=
    doRequestAux_last (h 5) rfl
  have e4 : doRequestAux httpDo rand 4 =
      ⟨2, [sleepDuration 4 (rand 4)], .rateLimitExhausted
        ("rate limited after " ++ toString maxRetries ++ " retries: " ++ s)⟩ := by
    rw [doRequestAux_retry (by norm_num [maxRetries]) (h 4) rfl, e5]
  have e3 : doRequestAux httpDo rand 3 =
      ⟨3, [sleepDuration 3 (rand 3), sleepDuration 4 (rand 4)], .rateLimitExhausted
        ("rate limited after " ++ toString maxRetries ++ " retries: " ++ s)⟩ := by
    rw [doRequestAux_retry (by norm_num [maxRetries]) (h 3) rfl, e4]
  have e2 : doRequestAux httpDo rand 2 =
      ⟨4, [sleepDuration 2 (rand 2), sleepDuration 3 (rand 3), sleepDuration 4 (rand 4)],
        .rateLimitExhausted
          ("rate limited after " ++ toString maxRetries ++ " retries: " ++ s)⟩ := by
    rw [doRequestAux_retry (by norm_num [maxRetries]) (h 2) rfl, e3]
  have e1 : doRequestAux httpDo rand 1 =
      ⟨5, [sleepDuration 1 (rand 1), sleepDuration 2 (rand 2), sleepDuration 3 (rand 3),
        sleepDuration 4 (rand 4)],
        .rateLimitExhausted
          ("rate limited after " ++ toString maxRetries ++ " retries: " ++ s)⟩ := by
    rw [doRequestAux_retry (by norm_num [maxRetries]) (h 1) rfl, e2]
  rw [doRequestWithRetry, doRequestAux_retry (by norm_num [maxRetries]) (h 0) rfl, e1]

/-- C4 witness: a concrete all-429 transport. -/
theorem executor_exhausts_rate_limit_witness :
    doRequestWithRetry (fun _ => DoResult.ok ⟨429, "429 Too Many Requests", ()⟩)
        (fun _ => 0) =
      ⟨6, [1000000000, 2000000000, 4000000000, 8000000000, 16000000000],
        .rateLimitExhausted "rate limited after 5 retries: 429 Too Many Requests"⟩ := by
  have h := executor_exhausts_rate_limit
    (fun _ => DoResult.ok ⟨429, "429 Too Many Requests", ()⟩) (fun _ => 0)
    "429 Too Many Requests" () (fun _ => rfl)
  have h0 : ∀ k : Nat, sleepDuration k 0 = backoffDelay k := fun k => by
    simp [sleepDuration]
  rw [h]
  simp only [h0]
  decide

/-- C5: the executor retries only on 429. A transport-level failure of the
first call is returned immediately — one call, no sleep — and a first response
with any non-429 status is returned as-is after one call, with no sleep. -/
theorem executor_single_call_on_non429 {α : Type}
    (httpDo : Nat → DoResult α) (rand : Nat → ℚ) :
    (∀ e, httpDo 0 = .err e →
      doRequestWithRetry httpDo rand = ⟨1, [], .transportErr e⟩) ∧
    (∀ resp : HttpResponse α, httpDo 0 = .ok resp → resp.statusCode ≠ 429 →
      doRequestWithRetry httpDo rand = ⟨1, [], .success resp⟩) := by
  constructor
  · intro e hdo
    rw [doRequestWithRetry, doRequestAux_transport (by norm_num [maxRetries]) hdo]
  · intro resp hdo hs
    rw [doRequestWithRetry, doRequestAux_non429 (by norm_num [maxRetries]) hdo hs]

/-- C5 witness: a failing transport and a 500 response, each settled in one
call with no sleep. -/
theorem executor_single_call_on_non429_witness :
    doRequestWithRetry (fun _ => (DoResult.err "connection refused" : DoResult Unit))
        (fun _ => 0) = ⟨1, [], .transportErr "connection refused"⟩ ∧
    doRequestWithRetry (fun _ => DoResult.ok ⟨500, "500 Internal Server Error", ()⟩)
        (fun _ => 0) = ⟨1, [], .success ⟨500, "500 Internal Server Error", ()⟩⟩ :=
  ⟨(executor_single_call_on_non429
      (fun _ => (DoResult.err "connection refused" : DoResult Unit)) (fun _ => 0)).1
      "connection refused" rfl,
    (executor_single_call_on_non429
      (fun _ => DoResult.ok ⟨500, "500 Internal Server Error", ()⟩) (fun _ => 0)).2
      ⟨500, "500 Internal Server Error", ()⟩ rfl (by decide)⟩

/-- C7: for every attempt index `n` and every possible `rand.Float64()` draw
`r ∈ [0, 1)`, the computed sleep duration is the base delay `base * 2^n` plus
a non-negative jitter, and lies in `[base*2^n, 1.1 * base*2^n]`
(stated over ℤ as `10 * d ≤ 11 * base*2^n`). -/
theorem backoff_delay_in_bounds (n : Nat) (r : ℚ) (h0 : 0 ≤ r) (h1 : r < 1) :
    backoffDelay n ≤ sleepDuration n r ∧
      10 * sleepDuration n r ≤ 11 * backoffDelay n := by
  have hdpos : (0 : ℤ) < backoffDelay n := by
    have : (0 : ℤ) < 2 ^ n := by positivity
    simp only [backoffDelay, baseDelay]
    positivity
  have hdq : (0 : ℚ) ≤ (backoffDelay n : ℚ) := by exact_mod_cast hdpos.le
  have hjnonneg : 0 ≤ Int.floor (r * (backoffDelay n : ℚ) * (1 / 10)) := by
    apply Int.floor_nonneg.mpr
    positivity
  constructor
  · simp only [sleepDuration]
    omega
  · have hfloor : (Int.floor (r * (backoffDelay n : ℚ) * (1 / 10)) : ℚ) ≤
        r * (backoffDelay n : ℚ) * (1 / 10) := Int.floor_le _
    have hkey : (10 : ℚ) * (Int.floor (r * (backoffDelay n : ℚ) * (1 / 10)) : ℚ) ≤
        (backoffDelay n : ℚ) := by
      calc (10 : ℚ) * (Int.floor (r * (backoffDelay n : ℚ) * (1 / 10)) : ℚ)
          ≤ 10 * (r * (backoffDelay n : ℚ) * (1 / 10)) := by linarith
        _ = r * (backoffDelay n : ℚ) := by ring
        _ ≤ 1 * (backoffDelay n : ℚ) := by
            exact mul_le_mul_of_nonneg_right h1.le hdq
        _ = (backoffDelay n : ℚ) := by ring
    have hkeyz : 10 * Int.floor (r * (backoffDelay n : ℚ) * (1 / 10)) ≤ backoffDelay n := by
      exact_mod_cast hkey
    simp only [sleepDuration]
    omega

/-- C7 witness: attempt 3 with draw 1/2 gives a sleep of 8.4 seconds, inside
[8s, 8.8s]. -/
theorem backoff_delay_in_bounds_witness :
    backoffDelay 3 ≤ sleepDuration 3 (1 / 2) ∧
      10 * sleepDuration 3 (1 / 2) ≤ 11 * backoffDelay 3 :=
  backoff_delay_in_bounds 3 (1 / 2) (by norm_num) (by norm_num)

/-- C10: the `return` after the retry loop ("unexpected error in retry logic")
is dead code — for every transport behavior and every jitter draw, the
executor's result comes from one of the three in-loop returns: a response, a
transport error, or the rate-limit-exhausted error. -/
theorem retry_loop_tail_unreachable {α : Type}
    (httpDo : Nat → DoResult α) (rand : Nat → ℚ) :
    (∃ resp, (doRequestWithRetry httpDo rand).result = .success resp) ∨
    (∃ e, (doRequestWithRetry httpDo rand).result = .transportErr e) ∨
    (∃ msg, (doRequestWithRetry httpDo rand).result = .rateLimitExhausted msg) := by
  rcases hres : (doRequestWithRetry httpDo rand).result with e | resp | msg | m
  · exact Or.inr (Or.inl ⟨e, rfl⟩)
  · exact Or.inl ⟨resp, rfl⟩
  · exact Or.inr (Or.inr ⟨msg, rfl⟩)
  · exact absurd hres
      (doRequestAux_result_ne_unreachable httpDo rand (maxRetries + 1) 0
        (by omega) (by omega) m)

/-! ## The raindrop client: paginated reader and list operations
(src/unnamed/part_001, second document, lines 235-318). -/

/-- `Raindrop` (a source bookmark). -/
structure Raindrop where
  id : Int
  title : String
  excerpt : String
  link : String
  tags : List String
deriving DecidableEq, Repr

/-- `Collection` (a source folder). -/
structure Collection where
  id : Int
  title : String
deriving DecidableEq, Repr

/-- Result of the pagination loop: the aggregated items, an error (with all
partial results discarded, mirroring `return nil, err`), or fuel exhaustion —
the Go loop is unbounded, so the embedding runs it on explicit fuel and
`diverged` marks runs the fuel did not cover. -/
inductive ReadResult (β : Type) where
  | ok (items : List β)
  | err (e : String)
  | diverged
deriving DecidableEq, Repr

/-- A run of the pagination loop: number of page fetches performed and the
returned value. -/
structure ReadTrace (β : Type) where
  fetches : Nat
  result : ReadResult β
deriving DecidableEq, Repr

/-- The `for { ... }` pagination loop of `GetRaindropsByCollection`:
fetch the page, propagate an error immediately, stop on an empty page
returning the accumulator, otherwise append and move to the next page. -/
def readAllAux {β : Type} (fetch : Nat → Except String (List β)) :
    Nat → Nat → List β → ReadTrace β
  | 0, _, _ => ⟨0, .diverged⟩
  | fuel + 1, page, acc =>
    match fetch page with
    | .error e => ⟨1, .err e⟩
    | .ok items =>
      if items.isEmpty then
        ⟨1, .ok acc⟩
      else
        let rest := readAllAux fetch fuel (page + 1) (acc ++ items)
        ⟨rest.fetches + 1, rest.result⟩

/-- Concatenation, in order, of `n` consecutive pages starting at `p`. -/
def pagesConcat {β : Type} (pages : Nat → List β) (p : Nat) : Nat → List β
  | 0 => []
  | n + 1 => pages p ++ pagesConcat pages (p + 1) n

/-- URL built by `GetRaindropsByCollection` for one page:
`fmt.Sprintf("%s/raindrops/%d?page=%d&perpage=50", c.baseURL, collectionID, page)`. -/
def raindropsURL (baseURL : String) (collectionID : Int) (page : Nat) : String :=
  baseURL ++ "/raindrops/" ++ toString collectionID ++ "?page=" ++ toString page
    ++ "&perpage=50"

/-- URL built by `GetCollections`:
`fmt.Sprintf("%s/collections", c.baseURL)`. -/
def collectionsURL (baseURL : String) : String :=
  baseURL ++ "/collections"

/-- The per-page body of `GetRaindropsByCollection`: run the request through
`doRequestWithRetry`, propagate its error; on a response, a non-200 status is
turned into `"failed to get raindrops: <status line>"` and a 200 yields the
decoded items (the response body models the decode result). Returns the page
outcome together with the HTTP calls made and sleeps performed. -/
def fetchRaindropPage (net : String → Nat → DoResult (Except String (List Raindrop)))
    (rand : Nat → ℚ) (url : String) :
    Except String (List Raindrop) × Nat × List Int :=
  let t := doRequestWithRetry (net url) rand
  match t.result with
  | .transportErr e => (.error e, t.calls, t.sleeps)
  | .rateLimitExhausted m => (.error m, t.calls, t.sleeps)
  | .unreachableErr m => (.error m, t.calls, t.sleeps)
  | .success resp =>
    if resp.statusCode ≠ 200 then
      (.error ("failed to get raindrops: " ++ resp.status), t.calls, t.sleeps)
    else
      (resp.body, t.calls, t.sleeps)

/-- `GetRaindropsByCollection` (src/unnamed/part_001, lines 240-288): the
pagination loop over `fetchRaindropPage`, starting at page 0 with an empty
accumulator. `net` maps a URL and an attempt index to that attempt's outcome;
`fuel` bounds the embedding's loop unrolling. -/
def GetRaindropsByCollection (baseURL : String)
    (net : String → Nat → DoResult (Except String (List Raindrop)))
    (rand : Nat → ℚ) (collectionID : Int) (fuel : Nat) : ReadTrace Raindrop :=
  readAllAux
    (fun page => (fetchRaindropPage net rand (raindropsURL baseURL collectionID page)).1)
    fuel 0 []

/-- `GetRaindrops` (src/unnamed/part_001, lines 235-237):
`return c.GetRaindropsByCollection(0)`. -/
def GetRaindrops (baseURL : String)
    (net : String → Nat → DoResult (Except String (List Raindrop)))
    (rand : Nat → ℚ) (fuel : Nat) : ReadTrace Raindrop :=
  GetRaindropsByCollection baseURL net rand 0 fuel

/-- `GetCollections` (src/unnamed/part_001, lines 291-318): a single request
through `doRequestWithRetry`; non-200 becomes
`"failed to get collections: <status line>"`, 200 yields the decoded
collections. Returns the outcome with the HTTP calls made and the sleeps
performed. -/
def GetCollections (baseURL : String)
    (net : String → Nat → DoResult (Except String (List Collection)))
    (rand : Nat → ℚ) :
    Except String (List Collection) × Nat × List Int :=
  let t := doRequestWithRetry (net (collectionsURL baseURL)) rand
  match t.result with
  | .transportErr e => (.error e, t.calls, t.sleeps)
  | .rateLimitExhausted m => (.error m, t.calls, t.sleeps)
  | .unreachableErr m => (.error m, t.calls, t.sleeps)
  | .success resp =>
    if resp.statusCode ≠ 200 then
      (.error ("failed to get collections: " ++ resp.status), t.calls, t.sleeps)
    else
      (resp.body, t.calls, t.sleeps)

lemma readAllAux_ok_spec {β : Type} (fetch : Nat → Except String (List β))
    (pages : Nat → List β) :
    ∀ (n p : Nat) (acc : List β) (fuel : Nat), n < fuel →
      (∀ i, i < n → fetch (p + i) = .ok (pages (p + i)) ∧ pages (p + i) ≠ []) →
      fetch (p + n) = .ok [] →
      readAllAux fetch fuel p acc = ⟨n + 1, .ok (acc ++ pagesConcat pages p n)⟩ := by
  intro n
  induction n with
  | zero =>
    intro p acc fuel hfuel hpages hend
    obtain ⟨f, rfl⟩ : ∃ f, fuel = f + 1 := ⟨fuel - 1, by omega⟩
    rw [Nat.add_zero] at hend
    simp [readAllAux, hend, pagesConcat]
  | succ n ih =>
    intro p acc fuel hfuel hpages hend
    obtain ⟨f, rfl⟩ : ∃ f, fuel = f + 1 := ⟨fuel - 1, by omega⟩
    have h0 := hpages 0 (by omega)
    rw [Nat.add_zero] at h0
    have hne : (pages p).isEmpty = false := by
      cases hp : pages p with
      | nil => exact absurd hp h0.2
      | cons x xs => rfl
    have hrec : readAllAux fetch f (p + 1) (acc ++ pages p) =
        ⟨n + 1, .ok ((acc ++ pages p) ++ pagesConcat pages (p + 1) n)⟩ := by
      apply ih (p + 1) (acc ++ pages p) f (by omega)
      · intro i hi
        have := hpages (i + 1) (by omega)
        rwa [show p + (i + 1) = p + 1 + i by omega] at this
      · rwa [show p + (n + 1) = p + 1 + n by omega] at hend
    simp only [readAllAux, h0.1, hne, Bool.false_eq_true, if_false, hrec]
    simp [pagesConcat, List.append_assoc]

lemma readAllAux_err_spec {β : Type} (fetch : Nat → Except String (List β))
    (pages : Nat → List β) :
    ∀ (n p : Nat) (acc : List β) (fuel : Nat) (e : String), n < fuel →
      (∀ i, i < n → fetch (p + i) = .ok (pages (p + i)) ∧ pages (p + i) ≠ []) →
      fetch (p + n) = .error e →
      readAllAux fetch fuel p acc = ⟨n + 1, .err e⟩ := by
  intro n
  induction n with
  | zero =>
    intro p acc fuel e hfuel hpages hend
    obtain ⟨f, rfl⟩ : ∃ f, fuel = f + 1 := ⟨fuel - 1, by omega⟩
    rw [Nat.add_zero] at hend
    simp [readAllAux, hend]
  | succ n ih =>
    intro p acc fuel e hfuel hpages hend
    obtain ⟨f, rfl⟩ : ∃ f, fuel = f + 1 := ⟨fuel - 1, by omega⟩
    have h0 := hpages 0 (by omega)
    rw [Nat.add_zero] at h0
    have hne : (pages p).isEmpty = false := by
      cases hp : pages p with
      | nil => exact absurd hp h0.2
      | cons x xs => rfl
    have hrec : readAllAux fetch f (p + 1) (acc ++ pages p) = ⟨n + 1, .err e⟩ := by
      apply ih (p + 1) (acc ++ pages p) f e (by omega)
      · intro i hi
        have := hpages (i + 1) (by omega)
        rwa [show p + (i + 1) = p + 1 + i by omega] at this
      · rwa [show p + (n + 1) = p + 1 + n by omega] at hend
    simp [readAllAux, h0.1, hne, hrec]

/-- C6: the pagination loop starts at page 0 and appends each page's items in
order until a page comes back empty, having then performed one fetch per page
visited (so a first empty page gives `[]` after exactly one fetch, the `n = 0`
case); and a page-fetcher error is propagated immediately, all partial results
discarded. -/
theorem paginated_reader_behavior :
    (∀ (β : Type) (fetch : Nat → Except String (List β)) (pages : Nat → List β)
        (n fuel : Nat), n < fuel →
      (∀ i, i < n → fetch i = .ok (pages i) ∧ pages i ≠ []) →
      fetch n = .ok [] →
      readAllAux fetch fuel 0 [] = ⟨n + 1, .ok (pagesConcat pages 0 n)⟩) ∧
    (∀ (β : Type) (fetch : Nat → Except String (List β)) (pages : Nat → List β)
        (n fuel : Nat) (e : String), n < fuel →
      (∀ i, i < n → fetch i = .ok (pages i) ∧ pages i ≠ []) →
      fetch n = .error e →
      readAllAux fetch fuel 0 [] = ⟨n + 1, .err e⟩) := by
  constructor
  · intro β fetch pages n fuel hfuel hpages hend
    have := readAllAux_ok_spec fetch pages n 0 [] fuel hfuel
      (by intro i hi; simpa using hpages i hi) (by simpa using hend)
    simpa using this
  · intro β fetch pages n fuel e hfuel hpages hend
    exact readAllAux_err_spec fetch pages n 0 [] fuel e hfuel
      (by intro i hi; simpa using hpages i hi) (by simpa using hend)

/-- C6 witness: pages `[[1,2],[3],[]]` give `[1,2,3]` after 3 fetches; an
error on page 1 is propagated after 2 fetches with partial results
discarded. -/
theorem paginated_reader_behavior_witness :
    readAllAux (fun p => if p = 0 then .ok [1, 2] else if p = 1 then .ok [3] else .ok [])
        5 0 [] = ⟨3, .ok ([1, 2, 3] : List Nat)⟩ ∧
    readAllAux (fun p => if p = 0 then .ok [1, 2] else .error "boom") 5 0 [] =
      ⟨2, (.err "boom" : ReadResult Nat)⟩ :=
  ⟨(paginated_reader_behavior.1 Nat
      (fun p => if p = 0 then .ok [1, 2] else if p = 1 then .ok [3] else .ok [])
      (fun p => if p = 0 then [1, 2] else if p = 1 then [3] else []) 2 5
      (by omega) (by intro i hi; interval_cases i <;> exact ⟨rfl, by simp⟩)
      rfl).trans (by decide),
    paginated_reader_behavior.2 Nat
      (fun p => if p = 0 then .ok [1, 2] else .error "boom")
      (fun p => if p = 0 then [1, 2] else if p = 1 then [3] else []) 1 5 "boom"
      (by omega) (by intro i hi; interval_cases i; exact ⟨rfl, by simp⟩) rfl⟩

/-- C9: `GetRaindrops` returns exactly the result of
`GetRaindropsByCollection` applied to collection identifier 0, for every
client state, network behavior, jitter draw and fuel. -/
theorem getRaindrops_is_getRaindropsByCollection_zero
    (baseURL : String) (net : String → Nat → DoResult (Except String (List Raindrop)))
    (rand : Nat → ℚ) (fuel : Nat) :
    GetRaindrops baseURL net rand fuel = GetRaindropsByCollection baseURL net rand 0 fuel :=
  rfl

/-- C3: both source-client list operations route their requests through
`doRequestWithRetry`: when the endpoint answers 429 on the first attempt and
200 on the second, `GetCollections` (and the page fetch used by
`GetRaindropsByCollection`) succeeds after 2 HTTP calls with one backoff
sleep, instead of surfacing the 429 as an error after a single call. -/
theorem source_client_retries_on_429 :
    (∀ (baseURL : String) (net : String → Nat → DoResult (Except String (List Collection)))
        (rand : Nat → ℚ) (s1 s2 : String) (b1 : Except String (List Collection))
        (items : List Collection),
      net (collectionsURL baseURL) 0 = .ok ⟨429, s1, b1⟩ →
      net (collectionsURL baseURL) 1 = .ok ⟨200, s2, .ok items⟩ →
      GetCollections baseURL net rand = (.ok items, 2, [sleepDuration 0 (rand 0)])) ∧
    (∀ (baseURL : String) (net : String → Nat → DoResult (Except String (List Raindrop)))
        (rand : Nat → ℚ) (collectionID : Int) (page : Nat) (s1 s2 : String)
        (b1 : Except String (List Raindrop)) (items : List Raindrop),
      net (raindropsURL baseURL collectionID page) 0 = .ok ⟨429, s1, b1⟩ →
      net (raindropsURL baseURL collectionID page) 1 = .ok ⟨200, s2, .ok items⟩ →
      fetchRaindropPage net rand (raindropsURL baseURL collectionID page) =
        (.ok items, 2, [sleepDuration 0 (rand 0)])) := by
  constructor
  · intro baseURL net rand s1 s2 b1 items h0 h1
    have t1 : doRequestAux (net (collectionsURL baseURL)) rand 1 =
        ⟨1, [], .success ⟨200, s2, .ok items⟩⟩ :=
      doRequestAux_non429 (by norm_num [maxRetries]) h1 (by simp)
    have t0 : doRequestWithRetry (net (collectionsURL baseURL)) rand =
        ⟨2, [sleepDuration 0 (rand 0)], .success ⟨200, s2, .ok items⟩⟩ := by
      rw [doRequestWithRetry, doRequestAux_retry (by norm_num [maxRetries]) h0 rfl, t1]
    simp [GetCollections, t0]
  · intro baseURL net rand collectionID page s1 s2 b1 items h0 h1
    have t1 : doRequestAux (net (raindropsURL baseURL collectionID page)) rand 1 =
        ⟨1, [], .success ⟨200, s2, .ok items⟩⟩ :=
      doRequestAux_non429 (by norm_num [maxRetries]) h1 (by simp)
    have t0 : doRequestWithRetry (net (raindropsURL baseURL collectionID page)) rand =
        ⟨2, [sleepDuration 0 (rand 0)], .success ⟨200, s2, .ok items⟩⟩ := by
      rw [doRequestWithRetry, doRequestAux_retry (by norm_num [maxRetries]) h0 rfl, t1]
    simp [fetchRaindropPage, t0]

/-- C3 witness: a network answering 429 then 200 on every URL; both list
operations succeed after 2 calls and a 1-second backoff sleep. -/
theorem source_client_retries_on_429_witness :
    GetCollections "https://api.raindrop.io/rest/v1"
        (fun _ k => if k = 0 then .ok ⟨429, "429 Too Many Requests", .error "x"⟩
          else .ok ⟨200, "200 OK", .ok [⟨1, "A"⟩]⟩) (fun _ => 0) =
      (.ok [⟨1, "A"⟩], 2, [1000000000]) ∧
    fetchRaindropPage
        (fun _ k => if k = 0 then .ok ⟨429, "429 Too Many Requests", .error "x"⟩
          else .ok ⟨200, "200 OK", .ok [⟨7, "T", "E", "https://x", []⟩]⟩) (fun _ => 0)
        (raindropsURL "https://api.raindrop.io/rest/v1" 0 0) =
      (.ok [⟨7, "T", "E", "https://x", []⟩], 2, [1000000000]) := by
  constructor
  · have h := source_client_retries_on_429.1 "https://api.raindrop.io/rest/v1"
      (fun _ k => if k = 0 then .ok ⟨429, "429 Too Many Requests", .error "x"⟩
        else .ok ⟨200, "200 OK", .ok [⟨1, "A"⟩]⟩) (fun _ => 0)
      "429 Too Many Requests" "200 OK" (.error "x") [⟨1, "A"⟩] rfl rfl
    rw [h]
    norm_num [sleepDuration, backoffDelay, baseDelay]
  · have h := source_client_retries_on_429.2 "https://api.raindrop.io/rest/v1"
      (fun _ k => if k = 0 then .ok ⟨429, "429 Too Many Requests", .error "x"⟩
        else .ok ⟨200, "200 OK", .ok [⟨7, "T", "E", "https://x", []⟩]⟩) (fun _ => 0)
      0 0 "429 Too Many Requests" "200 OK" (.error "x") [⟨7, "T", "E", "https://x", []⟩]
      rfl rfl
    rw [h]
    norm_num [sleepDuration, backoffDelay, baseDelay]

/-! ## The transfer orchestrator `RunImport`
(src/internal/importer/importer.go, lines 26-85).

The two API clients are modelled as records of functions from arguments to
outcomes; the orchestrator is a pure function returning its run-level result
together with the ordered list of destination calls it performed. -/

/-- A Karakeep bookmark (karakeep.go `Bookmark`); `id` is the Go zero value
`""` before creation. -/
structure Bookmark where
  id : String
  url : String
  title : String
  description : String
  tags : List String
deriving DecidableEq, Repr

/-- A Karakeep list (karakeep.go `List`). -/
structure KList where
  id : String
  name : String
deriving DecidableEq, Repr

/-- The Raindrop client operations used by `RunImport`. -/
structure RaindropAPI where
  GetCollections : Except String (List Collection)
  GetRaindropsByCollection : Int → Except String (List Raindrop)

/-- The Karakeep client operations used by `RunImport`. -/
structure KarakeepAPI where
  CreateList : KList → Except String KList
  CreateBookmark : Bookmark → Except String Bookmark
  AddBookmarkToList : String → String → Except String Unit

/-- A destination API call made by the orchestrator, in order. -/
inductive Event where
  | createList (name : String)
  | createBookmark (b : Bookmark)
  | linkBookmark (bookmarkID listID : String)
deriving DecidableEq, Repr

/-- The bookmark built in `RunImport`'s item loop (importer.go lines 63-68):
`&karakeep.Bookmark{URL: raindrop.Link, Title: raindrop.Title,
Description: raindrop.Excerpt, Tags: raindrop.Tags}` — the unset `ID` field
is Go's zero value `""`. -/
def mkBookmark (r : Raindrop) : Bookmark :=
  { id := "", url := r.link, title := r.title, description := r.excerpt, tags := r.tags }

/-- Phase 2 of `RunImport` (importer.go lines 37-47): for each collection,
attempt `CreateList`; on failure log and continue, on success insert
`collectionMap[collection.ID] = createdList.ID`. The Go map is modelled as a
function `Int → Option String`, insertion as pointwise update (later inserts
shadow earlier ones, as in Go). -/
def createLists (kk : KarakeepAPI) :
    List Collection → (Int → Option String) → (Int → Option String) × List Event
  | [], m => (m, [])
  | c :: rest, m =>
    match kk.CreateList ⟨"", c.title⟩ with
    | .error _ =>
      let r := createLists kk rest m
      (r.1, .createList c.title :: r.2)
    | .ok created =>
      let r := createLists kk rest (fun k => if k = c.id then some created.id else m k)
      (r.1, .createList c.title :: r.2)

/-- The inner item loop of `RunImport` (importer.go lines 62-80): create each
transformed bookmark; on failure log and continue; on success always call
`AddBookmarkToList(createdBookmark.ID, listID)` (its own failure is only
logged). -/
def importItems (kk : KarakeepAPI) (listID : String) : List Raindrop → List Event
  | [] => []
  | r :: rest =>
    match kk.CreateBookmark (mkBookmark r) with
    | .error _ => .createBookmark (mkBookmark r) :: importItems kk listID rest
    | .ok created =>
      .createBookmark (mkBookmark r) :: .linkBookmark created.id listID ::
        importItems kk listID rest

/-- Phase 3 of `RunImport` (importer.go lines 51-81): for each collection,
fetch its raindrops (on failure log and continue), read
`listID := collectionMap[collection.ID]` — Go map indexing, which yields the
zero value `""` when the key is absent — and run the item loop. -/
def importCollections (rd : RaindropAPI) (kk : KarakeepAPI)
    (m : Int → Option String) : List Collection → List Event
  | [] => []
  | c :: rest =>
    match rd.GetRaindropsByCollection c.id with
    | .error _ => importCollections rd kk m rest
    | .ok items =>
      importItems kk ((m c.id).getD "") items ++ importCollections rd kk m rest

/-- `RunImport` (importer.go lines 26-85): fetch the collections (the only
run-fatal step, wrapped as `"failed to get collections: <err>"`), create the
destination lists, then import every collection's items; finally
`return nil`. -/
def RunImport (rd : RaindropAPI) (kk : KarakeepAPI) :
    Except String Unit × List Event :=
  match rd.GetCollections with
  | .error e => (.error ("failed to get collections: " ++ e), [])
  | .ok collections =>
    let r := createLists kk collections (fun _ => none)
    (.ok (), r.2 ++ importCollections rd kk r.1 collections)

/-- C2: `RunImport` errors exactly when the initial collection listing does —
with the wrapped message — and returns `ok` whenever that first read
succeeds, whatever the destination client and the per-collection fetches do
downstream. -/
theorem runImport_error_iff_listing_fails (rd : RaindropAPI) (kk : KarakeepAPI) :
    (∀ e, rd.GetCollections = .error e →
      (RunImport rd kk).1 = .error ("failed to get collections: " ++ e)) ∧
    (∀ cs, rd.GetCollections = .ok cs → (RunImport rd kk).1 = .ok ()) := by
  constructor
  · intro e h
    simp [RunImport, h]
  · intro cs h
    simp [RunImport, h]

/-- C2 witness: a failing listing is fatal; with a successful listing the run
returns `ok` even though every downstream call fails. -/
theorem runImport_error_iff_listing_fails_witness :
    (RunImport ⟨.error "boom", fun _ => .ok []⟩
      ⟨fun _ => .ok ⟨"L", "A"⟩, fun b => .ok b, fun _ _ => .ok ()⟩).1 =
        .error "failed to get collections: boom" ∧
    (RunImport ⟨.ok [⟨1, "A"⟩], fun _ => .error "fetch failed"⟩
      ⟨fun _ => .error "create list failed", fun _ => .error "create bookmark failed",
        fun _ _ => .error "link failed"⟩).1 = .ok () :=
  ⟨(runImport_error_iff_listing_fails ⟨.error "boom", fun _ => .ok []⟩
      ⟨fun _ => .ok ⟨"L", "A"⟩, fun b => .ok b, fun _ _ => .ok ()⟩).1 "boom" rfl,
    (runImport_error_iff_listing_fails ⟨.ok [⟨1, "A"⟩], fun _ => .error "fetch failed"⟩
      ⟨fun _ => .error "create list failed", fun _ => .error "create bookmark failed",
        fun _ _ => .error "link failed"⟩).2 [⟨1, "A"⟩] rfl⟩

lemma importItems_createBookmark_mem (kk : KarakeepAPI) (listID : String) :
    ∀ (items : List Raindrop) (r : Raindrop), r ∈ items →
      Event.createBookmark (mkBookmark r) ∈ importItems kk listID items := by
  intro items
  induction items with
  | nil =>
    intro r h
    cases h
  | cons x rest ih =>
    intro r h
    rcases List.mem_cons.mp h with rfl | hmem
    · cases hcb : kk.CreateBookmark (mkBookmark r) with
      | error e =>
        simp only [importItems, hcb]
        exact List.mem_cons_self _ _
      | ok created =>
        simp only [importItems, hcb]
        exact List.mem_cons_self _ _
    · cases hcb : kk.CreateBookmark (mkBookmark x) with
      | error e =>
        simp only [importItems, hcb]
        exact List.mem_cons_of_mem _ (ih r hmem)
      | ok created =>
        simp only [importItems, hcb]
        exact List.mem_cons_of_mem _ (List.mem_cons_of_mem _ (ih r hmem))

lemma importCollections_createBookmark_mem (rd : RaindropAPI) (kk : KarakeepAPI)
    (m : Int → Option String) :
    ∀ (cs : List Collection) (c : Collection) (items : List Raindrop) (r : Raindrop),
      c ∈ cs → rd.GetRaindropsByCollection c.id = .ok items → r ∈ items →
      Event.createBookmark (mkBookmark r) ∈ importCollections rd kk m cs := by
  intro cs
  induction cs with
  | nil =>
    intro c items r hc
    cases hc
  | cons x rest ih =>
    intro c items r hc hitems hr
    rcases List.mem_cons.mp hc with rfl | hmem
    · simp only [importCollections, hitems]
      exact List.mem_append_left _ (importItems_createBookmark_mem kk _ items r hr)
    · cases hfx : rd.GetRaindropsByCollection x.id with
      | error e =>
        simp only [importCollections, hfx]
        exact ih c items r hmem hitems hr
      | ok its =>
        simp only [importCollections, hfx]
        exact List.mem_append_right _ (ih c items r hmem hitems hr)

/-- C8: for every source item the orchestrator reaches, the destination call
is made with the fields copied verbatim — URL from `link`, title from
`title`, description from `excerpt`, tags from `tags`, the identifier left at
the zero value — with no sanitization, empty values included (the statement
quantifies over all items, empty-fielded ones included). -/
theorem orchestrator_copies_fields_verbatim (rd : RaindropAPI) (kk : KarakeepAPI)
    (cs : List Collection) (c : Collection) (items : List Raindrop) (r : Raindrop)
    (hcs : rd.GetCollections = .ok cs) (hc : c ∈ cs)
    (hitems : rd.GetRaindropsByCollection c.id = .ok items) (hr : r ∈ items) :
    Event.createBookmark ⟨"", r.link, r.title, r.excerpt, r.tags⟩ ∈ (RunImport rd kk).2 := by
  simp only [RunImport, hcs]
  exact List.mem_append_right _
    (importCollections_createBookmark_mem rd kk _ cs c items r hc hitems hr)

/-- C8 witness: a bookmark with empty excerpt and tags is passed through
unmodified. -/
theorem orchestrator_copies_fields_verbatim_witness :
    Event.createBookmark ⟨"", "https://x", "T", "", []⟩ ∈
      (RunImport
        ⟨.ok [⟨1, "A"⟩], fun cid => if cid = 1 then .ok [⟨101, "T", "", "https://x", []⟩] else .ok []⟩
        ⟨fun l => .ok ⟨"L1", l.name⟩, fun b => .ok ⟨"B1", b.url, b.title, b.description, b.tags⟩,
          fun _ _ => .ok ()⟩).2 :=
  orchestrator_copies_fields_verbatim
    ⟨.ok [⟨1, "A"⟩], fun cid => if cid = 1 then .ok [⟨101, "T", "", "https://x", []⟩] else .ok []⟩
    ⟨fun l => .ok ⟨"L1", l.name⟩, fun b => .ok ⟨"B1", b.url, b.title, b.description, b.tags⟩,
      fun _ _ => .ok ()⟩
    [⟨1, "A"⟩] ⟨1, "A"⟩ [⟨101, "T", "", "https://x", []⟩] ⟨101, "T", "", "https://x", []⟩
    rfl (List.mem_cons_self _ _) rfl (List.mem_cons_self _ _)

/-- One source collection whose destination list creation always fails, and
one item that is created successfully. -/
def rdC1 : RaindropAPI :=
  ⟨.ok [⟨1, "A"⟩], fun cid => if cid = 1 then .ok [⟨101, "T", "E", "https://x", []⟩] else .ok []⟩

/-- A destination client that rejects every list creation but accepts
bookmark creations. -/
def kkC1 : KarakeepAPI :=
  ⟨fun _ => .error "failed to create list: 500 Internal Server Error",
    fun b => .ok ⟨"b1", b.url, b.title, b.description, b.tags⟩,
    fun _ _ => .ok ()⟩

/-- C1 counterexample: folder 1's destination creation fails, so the
FolderMapping has no entry for it — yet after the item is created, the
link call IS made, with the Go zero-value list identifier `""`
(`listID := collectionMap[collection.ID]` on a missing key). -/
theorem link_called_for_unmapped_folder :
    kkC1.CreateList ⟨"", "A"⟩ = .error "failed to create list: 500 Internal Server Error" ∧
    (createLists kkC1 [⟨1, "A"⟩] (fun _ => none)).1 1 = none ∧
    (RunImport rdC1 kkC1).2 =
      [.createList "A", .createBookmark ⟨"", "https://x", "T", "E", []⟩,
        .linkBookmark "b1" ""] ∧
    Event.linkBookmark "b1" "" ∈ (RunImport rdC1 kkC1).2 :=
  ⟨rfl, rfl, rfl, by decide⟩

/-- C1 amended: after a successful item creation the link call is always
attempted — a link event for list `listID` occurs in the item loop exactly
for the successfully created bookmarks — and the list identifier used is the
FolderMapping entry when present and the zero value `""` when the folder has
no entry. -/
theorem link_attempted_iff_item_created :
    (∀ (kk : KarakeepAPI) (listID bid : String) (items : List Raindrop),
      Event.linkBookmark bid listID ∈ importItems kk listID items ↔
        ∃ r ∈ items, ∃ created, kk.CreateBookmark (mkBookmark r) = .ok created ∧
          created.id = bid) ∧
    (∀ (rd : RaindropAPI) (kk : KarakeepAPI) (m : Int → Option String) (c : Collection)
        (rest : List Collection) (items : List Raindrop),
      rd.GetRaindropsByCollection c.id = .ok items →
      importCollections rd kk m (c :: rest) =
        importItems kk ((m c.id).getD "") items ++ importCollections rd kk m rest) := by
  constructor
  · intro kk listID bid items
    induction items with
    | nil => simp [importItems]
    | cons x rest ih =>
      cases hcb : kk.CreateBookmark (mkBookmark x) with
      | error e =>
        simp only [importItems, hcb, List.mem_cons]
        constructor
        · rintro (h | h)
          · exact absurd h (by simp)
          · obtain ⟨r, hr, created, h1, h2⟩ := ih.mp h
            exact ⟨r, Or.inr hr, created, h1, h2⟩
        · rintro ⟨r, hr, created, h1, h2⟩
          rcases hr with rfl | hr2
          · rw [hcb] at h1
            exact absurd h1 (by simp)
          · exact Or.inr (ih.mpr ⟨r, hr2, created, h1, h2⟩)
      | ok created =>
        simp only [importItems, hcb, List.mem_cons]
        constructor
        · rintro (h | h | h)
          · exact absurd h (by simp)
          · simp only [Event.linkBookmark.injEq] at h
            exact ⟨x, Or.inl rfl, created, hcb, h.1.symm⟩
          · obtain ⟨r, hr, created2, h1, h2⟩ := ih.mp h
            exact ⟨r, Or.inr hr, created2, h1, h2⟩
        · rintro ⟨r, hr, created2, h1, h2⟩
          rcases hr with rfl | hr2
          · rw [hcb] at h1
            have hcc : created = created2 := by
              injection h1
            exact Or.inr (Or.inl (by rw [hcc, h2]))
          · exact Or.inr (Or.inr (ih.mpr ⟨r, hr2, created2, h1, h2⟩))
  · intro rd kk m c rest items h
    simp [importCollections, h]

/-- C1 amended witness: the unmapped folder's item loop runs with the
zero-value list identifier. -/
theorem link_attempted_iff_item_created_witness :
    importCollections rdC1 kkC1 (fun _ => none) [⟨1, "A"⟩] =
      importItems kkC1 "" [⟨101, "T", "E", "https://x", []⟩] ++
        importCollections rdC1 kkC1 (fun _ => none) [] :=
  link_attempted_iff_item_created.2 rdC1 kkC1 (fun _ => none) ⟨1, "A"⟩ []
    [⟨101, "T", "E", "https://x", []⟩] rfl

end Rainbridge
